import Mathlib

/-!
Verification of the background-maintenance subsystem of the Doris OLAP
storage engine: the data-model entities of be/src/olap/olap_common.h and
the periodic background worker callbacks of OLAPEngine (garbage sweeper,
disk-stat monitor, unused-index cleanup, fd-cache cleanup, base and
cumulative compaction).  Machine integers are modelled as ℕ / ℤ with
explicit reduction modulo 2 ^ 32 where 32-bit unsigned overflow matters;
C++ double arithmetic in the sweep-ratio computation is modelled over ℝ.
-/

namespace DorisBg

/-! ## Data model: olap_common.h -/

/-- TabletInfo (olap_common.h, lines 42-66): a tablet identifier made of
tablet_id (TTabletId, int64) and schema_hash (TSchemaHash, int32). -/
structure TabletInfo where
  tablet_id : ℤ
  schema_hash : ℤ
  deriving DecidableEq

/-- TabletInfo::operator< (olap_common.h, lines 49-55): compare tablet_id
first and use schema_hash as the tiebreak. -/
def TabletInfo.lt (a b : TabletInfo) : Prop :=
  if a.tablet_id ≠ b.tablet_id then a.tablet_id < b.tablet_id
  else a.schema_hash < b.schema_hash

instance (a b : TabletInfo) : Decidable (TabletInfo.lt a b) := by
  unfold TabletInfo.lt
  infer_instance

/-- KeyRange = std::pair of WrapperField pointers (olap_common.h, line 178);
the two pointer values are modelled as a pair of integers, since the rowset
constructor only ever copies them verbatim. -/
abbrev KeyRange : Type := ℤ × ℤ

/-- RowSetEntity (olap_common.h, lines 179-198): metadata snapshot of one
physical rowset. -/
structure RowSetEntity where
  rowset_id : ℤ
  num_segments : ℤ
  num_rows : ℤ
  data_size : ℕ
  index_size : ℕ
  empty : Bool
  key_ranges : List KeyRange
  deriving DecidableEq

/-- The RowSetEntity constructor (olap_common.h, lines 180-189): key_ranges
starts empty and is assigned a copy of the column_statistics vector exactly
when the column_statistics pointer is non-null.  The nullable pointer
argument is modelled as an Option. -/
def RowSetEntity.make (rowset_id num_segments num_rows : ℤ)
    (data_size index_size : ℕ) (empty : Bool)
    (column_statistics : Option (List KeyRange)) : RowSetEntity :=
  { rowset_id := rowset_id
    num_segments := num_segments
    num_rows := num_rows
    data_size := data_size
    index_size := index_size
    empty := empty
    key_ranges :=
      match column_statistics with
      | none => []
      | some stats => stats }

/-- VersionEntity (olap_common.h, lines 200-210): a version span, its hash,
and the vector of rowset entities belonging to that version. -/
structure VersionEntity where
  version : ℤ × ℤ
  version_hash : ℤ
  rowset_vec : List RowSetEntity

/-- The VersionEntity constructor (olap_common.h, lines 201-202): the rowset
vector starts empty. -/
def VersionEntity.make (v : ℤ × ℤ) (h : ℤ) : VersionEntity :=
  { version := v, version_hash := h, rowset_vec := [] }

/-- VersionEntity::add_rowset_entity (olap_common.h, lines 203-205):
push_back on the rowset vector. -/
def VersionEntity.add_rowset_entity (e : VersionEntity) (rowset : RowSetEntity) :
    VersionEntity :=
  { e with rowset_vec := e.rowset_vec ++ [rowset] }

/-! ## Periodic worker callbacks: interval validation and loop shape -/

/-- Modelled from the spec: the declarations of the configuration keys in
namespace config (section 6 of the spec) are not part of the sources here;
the spec describes each interval key as an integer setting that may be
zero or negative (a value that is not a positive integer).  A configured
value is therefore modelled as a mathematical integer, and reading it into
the uint32_t local variable of a callback reduces it modulo 2 ^ 32, as the
C++ integer conversion to an unsigned 32-bit type does. -/
def toU32 (c : ℤ) : ℕ :=
  (c % (2 ^ 32 : ℤ)).toNat

/-- The interval validation shared by the simple periodic callbacks
(part_000, lines 93-98, 111-116, 183-189, 204-210, 225-230): load the
configured value into a uint32_t and replace it by the safe default when
the stored unsigned value is ≤ 0, which for an unsigned integer can only
mean it is exactly 0. -/
def effectiveInterval (c : ℤ) (dflt : ℕ) : ℕ :=
  if toU32 c ≤ 0 then dflt else toU32 c

/-- _fd_cache_clean_callback interval (part_000, lines 93-98): default 3600. -/
def fdCacheCleanInterval (c : ℤ) : ℕ :=
  effectiveInterval c 3600

/-- _disk_stat_monitor_thread_callback interval (part_000, lines 183-189):
default 1. -/
def diskStatMonitorInterval (c : ℤ) : ℕ :=
  effectiveInterval c 1

/-- _unused_index_thread_callback interval (part_000, lines 204-210):
default 1. -/
def unusedIndexMonitorInterval (c : ℤ) : ℕ :=
  effectiveInterval c 1

/-- _base_compaction_thread_callback interval (part_000, lines 111-116):
default 1. -/
def baseCompactionCheckInterval (c : ℤ) : ℕ :=
  effectiveInterval c 1

/-- _cumulative_compaction_thread_callback interval (part_000,
lines 225-230): default 1. -/
def cumulativeCompactionCheckInterval (c : ℤ) : ℕ :=
  effectiveInterval c 1

/-- The argument the compaction callbacks pass to usleep (part_000,
lines 127 and 238): interval * 1000000 computed in 32-bit unsigned
arithmetic, hence reduced modulo 2 ^ 32. -/
def compactionSleepMicros (interval : ℕ) : ℕ :=
  (interval * 1000000) % 2 ^ 32

/-- One observable step of a worker loop body: sleeping, invoking the
unit-of-work action, or joining the resource-control group. -/
inductive Event where
  | sleep
  | act
  | cgroup
  deriving DecidableEq

/-- The five periodic workers instantiated from the generic harness
(the adaptive garbage sweeper is treated separately). -/
inductive Worker where
  | fdCacheClean
  | diskStatMonitor
  | unusedIndexClean
  | baseCompaction
  | cumulativeCompaction
  deriving DecidableEq

/-- The straight-line body of each worker's while(true) loop, transcribed
in statement order from part_000: fd-cache cleanup sleeps first then acts
(lines 99-102); disk-stat monitor acts then sleeps (lines 191-194);
unused-index cleanup acts then sleeps (lines 212-215); base compaction
joins the cgroup, acts, then usleeps (lines 120-128); cumulative
compaction joins the cgroup, acts, then usleeps (lines 232-239). -/
def iterBody : Worker → List Event
  | Worker.fdCacheClean => [Event.sleep, Event.act]
  | Worker.diskStatMonitor => [Event.act, Event.sleep]
  | Worker.unusedIndexClean => [Event.act, Event.sleep]
  | Worker.baseCompaction => [Event.cgroup, Event.act, Event.sleep]
  | Worker.cumulativeCompaction => [Event.cgroup, Event.act, Event.sleep]

/-- Whether the first sleep of a loop body comes before the first
unit-of-work action. -/
def sleepPrecedesAct : List Event → Bool
  | [] => false
  | Event.sleep :: _ => true
  | Event.act :: _ => false
  | Event.cgroup :: rest => sleepPrecedesAct rest

/-- Whether the first unit-of-work action of a loop body comes before the
first sleep. -/
def actPrecedesSleep : List Event → Bool
  | [] => false
  | Event.act :: _ => true
  | Event.sleep :: _ => false
  | Event.cgroup :: rest => actPrecedesSleep rest

/-! ## Garbage sweeper: configuration validation and adaptive interval -/

/-- The guard-and-reset step of _garbage_sweeper_thread_callback (part_000,
lines 140-147), acting on the uint32_t contents of the two locals after
the config loads: when not (max ≥ min and min > 0), min is reset to 1 and
max is raised to min when it was below it. -/
def validateSweepIntervals (minI maxI : ℕ) : ℕ × ℕ :=
  if maxI ≥ minI ∧ minI > 0 then (minI, maxI)
  else (1, if maxI ≥ 1 then maxI else 1)

/-- The full start-up validation of _garbage_sweeper_thread_callback
(part_000, lines 137-147): the configured values are first loaded into
uint32_t locals (lines 137-138), which reduces a signed configured value
modulo 2 ^ 32 exactly as in toU32, and the guard-and-reset of
lines 140-147 then runs on those locals. -/
def validateSweepConfig (minCfg maxCfg : ℤ) : ℕ × ℕ :=
  validateSweepIntervals (toU32 minCfg) (toU32 maxCfg)

/-- The callback computes pi as 4 * atan(1) (part_000, line 149). -/
noncomputable def sweepPi : ℝ :=
  4 * Real.arctan 1

/-- The raw damping formula of line 158 applied to the usage percentage p:
(1.1 * (pi / 2 - atan(p / 5 - 14)) - 0.28) / pi, over ℝ. -/
noncomputable def rawRatio (p : ℝ) : ℝ :=
  (1.1 * (sweepPi / 2 - Real.arctan (p / 5 - 14)) - 0.28) / sweepPi

/-- Line 159: ratio = ratio > 0 ? ratio : 0. -/
noncomputable def sweepRatio (p : ℝ) : ℝ :=
  if rawRatio p > 0 then rawRatio p else 0

/-- Lines 153 and 160-163: the usage fraction is scaled to a percentage,
curr_interval = max_interval * ratio truncated to a uint32_t (truncation
toward zero is Nat.floor since the ratio is non-negative), and the result
is replaced by min_interval unless it exceeds it. -/
noncomputable def sweepInterval (minI maxI : ℕ) (usage : ℝ) : ℕ :=
  if Nat.floor ((maxI : ℝ) * sweepRatio (usage * 100)) > minI
  then Nat.floor ((maxI : ℝ) * sweepRatio (usage * 100))
  else minI

/-! ## Helper lemmas -/

lemma sweepPi_eq : sweepPi = Real.pi := by
  unfold sweepPi
  rw [Real.arctan_one]
  ring

lemma arctan_lt_id {x : ℝ} (hx : 0 < x) : Real.arctan x < x := by
  have h0 : 0 < Real.arctan x := by
    have h := Real.arctan_strictMono hx
    rwa [Real.arctan_zero] at h
  have h1 := Real.lt_tan h0 (Real.arctan_lt_pi_div_two x)
  rwa [Real.tan_arctan] at h1

lemma div_sqrt_le_arctan {x : ℝ} (hx : 0 ≤ x) :
    x / Real.sqrt (1 + x ^ 2) ≤ Real.arctan x := by
  rw [Real.arctan_eq_arcsin]
  have hs0 : (0 : ℝ) < Real.sqrt (1 + x ^ 2) := Real.sqrt_pos.mpr (by positivity)
  have hy0 : 0 ≤ x / Real.sqrt (1 + x ^ 2) := div_nonneg hx hs0.le
  have hy1 : x / Real.sqrt (1 + x ^ 2) ≤ 1 := by
    rw [div_le_one hs0]
    calc x = Real.sqrt (x ^ 2) := (Real.sqrt_sq hx).symm
    _ ≤ Real.sqrt (1 + x ^ 2) := Real.sqrt_le_sqrt (by nlinarith)
  have harc0 : 0 ≤ Real.arcsin (x / Real.sqrt (1 + x ^ 2)) :=
    Real.arcsin_nonneg.mpr hy0
  have hsin := Real.sin_arcsin (by linarith) hy1
  have hle := Real.sin_le harc0
  rw [hsin] at hle
  exact hle

lemma arctan_gt_pi_div_two_sub {x : ℝ} (hx : 0 < x) :
    Real.pi / 2 - x⁻¹ < Real.arctan x := by
  have hinv := Real.arctan_inv_of_pos hx
  have hlt : Real.arctan x⁻¹ < x⁻¹ := arctan_lt_id (by positivity)
  have h2 : Real.pi / 2 - Real.arctan x < x⁻¹ := by
    rw [← hinv]
    exact hlt
  linarith

lemma arctan_fourteen_ub : Real.arctan 14 ≤ Real.pi / 2 - 1 / 15 := by
  have hinv := Real.arctan_inv_of_pos (show (0 : ℝ) < 14 by norm_num)
  have hs0 : (0 : ℝ) < Real.sqrt (1 + ((14 : ℝ)⁻¹) ^ 2) :=
    Real.sqrt_pos.mpr (by norm_num)
  have hs : Real.sqrt (1 + ((14 : ℝ)⁻¹) ^ 2) ≤ 15 / 14 := by
    have h2 : Real.sqrt (1 + ((14 : ℝ)⁻¹) ^ 2) ≤ Real.sqrt ((15 / 14 : ℝ) ^ 2) :=
      Real.sqrt_le_sqrt (by norm_num)
    rwa [Real.sqrt_sq (by norm_num : (0 : ℝ) ≤ 15 / 14)] at h2
  have h1 := div_sqrt_le_arctan (show (0 : ℝ) ≤ (14 : ℝ)⁻¹ by norm_num)
  have h3 : (1 : ℝ) / 15 ≤ (14 : ℝ)⁻¹ / Real.sqrt (1 + ((14 : ℝ)⁻¹) ^ 2) := by
    rw [div_le_div_iff₀ (by norm_num) hs0]
    nlinarith [hs]
  linarith [hinv, h1, h3]

lemma rawRatio_antitone {p q : ℝ} (h : p ≤ q) : rawRatio q ≤ rawRatio p := by
  unfold rawRatio
  rw [sweepPi_eq]
  have hm : Real.arctan (p / 5 - 14) ≤ Real.arctan (q / 5 - 14) :=
    Real.arctan_strictMono.monotone (by linarith)
  have hpi := Real.pi_pos
  rw [div_le_div_iff₀ hpi hpi]
  nlinarith [mul_nonneg (sub_nonneg.mpr hm) hpi.le]

lemma rawRatio_thirty : rawRatio 30 > 0.9 := by
  unfold rawRatio
  rw [sweepPi_eq]
  have harg : (30 : ℝ) / 5 - 14 = -8 := by norm_num
  rw [harg, Real.arctan_neg]
  rw [gt_iff_lt, lt_div_iff₀ Real.pi_pos]
  have h8 := arctan_gt_pi_div_two_sub (show (0 : ℝ) < 8 by norm_num)
  nlinarith [h8, Real.pi_gt_three]

lemma rawRatio_ninety_neg : rawRatio 90 < 0 := by
  unfold rawRatio
  rw [sweepPi_eq]
  have harg : (90 : ℝ) / 5 - 14 = 4 := by norm_num
  rw [harg]
  apply div_neg_of_neg_of_pos ?_ Real.pi_pos
  have h4 := arctan_gt_pi_div_two_sub (show (0 : ℝ) < 4 by norm_num)
  nlinarith [h4]

lemma rawRatio_hundred_neg : rawRatio 100 < 0 := by
  unfold rawRatio
  rw [sweepPi_eq]
  have harg : (100 : ℝ) / 5 - 14 = 6 := by norm_num
  rw [harg]
  apply div_neg_of_neg_of_pos ?_ Real.pi_pos
  have h6 := arctan_gt_pi_div_two_sub (show (0 : ℝ) < 6 by norm_num)
  nlinarith [h6]

lemma rawRatio_zero_lt_one : rawRatio 0 < 1 := by
  unfold rawRatio
  rw [sweepPi_eq]
  have harg : (0 : ℝ) / 5 - 14 = -14 := by norm_num
  rw [harg, Real.arctan_neg]
  rw [div_lt_one Real.pi_pos]
  nlinarith [arctan_fourteen_ub, Real.pi_lt_d2]

lemma sweepRatio_nonneg (p : ℝ) : 0 ≤ sweepRatio p := by
  unfold sweepRatio
  split_ifs with h
  · linarith
  · exact le_rfl

lemma sweepRatio_antitone {p q : ℝ} (h : p ≤ q) : sweepRatio q ≤ sweepRatio p := by
  have hr := rawRatio_antitone h
  unfold sweepRatio
  split_ifs <;> linarith

lemma sweepRatio_lt_one {p : ℝ} (hp : 0 ≤ p) : sweepRatio p < 1 := by
  have h0 : sweepRatio 0 < 1 := by
    unfold sweepRatio
    split_ifs with h
    · exact rawRatio_zero_lt_one
    · norm_num
  linarith [sweepRatio_antitone hp]

/-! ## Claims about the adaptive garbage-sweep worker -/

/-- C1: the damping function of the garbage sweeper is non-increasing on
the usage-percentage range [0, 100]; its value at 30 exceeds 0.9; its
value at 90 is below 0.02; and whenever the raw formula is negative the
clamped result is exactly 0. -/
theorem C1_sweep_ratio_shape :
    (∀ p q : ℝ, 0 ≤ p → p ≤ q → q ≤ 100 → sweepRatio q ≤ sweepRatio p) ∧
    sweepRatio 30 > 0.9 ∧
    sweepRatio 90 < 0.02 ∧
    (∀ p : ℝ, rawRatio p < 0 → sweepRatio p = 0) := by
  refine ⟨fun p q hp hpq hq => sweepRatio_antitone hpq, ?_, ?_, ?_⟩
  · have h := rawRatio_thirty
    unfold sweepRatio
    rw [if_pos (by linarith)]
    exact h
  · have h := rawRatio_ninety_neg
    unfold sweepRatio
    rw [if_neg (by linarith)]
    norm_num
  · intro p hp
    unfold sweepRatio
    rw [if_neg (by linarith)]

/-- C1 witness: monotonicity applied between 30 and 40, and the clamp
applied at percentage 100 where the raw formula is negative. -/
theorem C1_witness :
    ((0 : ℝ) ≤ 30 ∧ (30 : ℝ) ≤ 40 ∧ (40 : ℝ) ≤ 100 ∧
      sweepRatio 40 ≤ sweepRatio 30) ∧
    (rawRatio 100 < 0 ∧ sweepRatio 100 = 0) :=
  ⟨⟨by norm_num, by norm_num, by norm_num,
      C1_sweep_ratio_shape.1 30 40 (by norm_num) (by norm_num) (by norm_num)⟩,
    ⟨rawRatio_hundred_neg, C1_sweep_ratio_shape.2.2.2 100 rawRatio_hundred_neg⟩⟩

/-- C2: for every validated configuration 0 < min ≤ max and every usage
fraction in [0, 1], the per-iteration sweep interval lies within
[min, max] inclusive. -/
theorem C2_sweep_interval_in_bounds (minI maxI : ℕ) (usage : ℝ)
    (hmin : 0 < minI) (hle : minI ≤ maxI) (hu0 : 0 ≤ usage) (hu1 : usage ≤ 1) :
    minI ≤ sweepInterval minI maxI usage ∧ sweepInterval minI maxI usage ≤ maxI := by
  have hp0 : (0 : ℝ) ≤ usage * 100 := by linarith
  have hr1 : sweepRatio (usage * 100) < 1 := sweepRatio_lt_one hp0
  have hcast : (0 : ℝ) ≤ (maxI : ℝ) := Nat.cast_nonneg maxI
  have hle2 : (maxI : ℝ) * sweepRatio (usage * 100) ≤ (maxI : ℝ) :=
    mul_le_of_le_one_right hcast hr1.le
  have hfl : Nat.floor ((maxI : ℝ) * sweepRatio (usage * 100)) ≤ maxI :=
    Nat.floor_le_of_le hle2
  unfold sweepInterval
  constructor
  · split_ifs with hc
    · omega
    · exact le_refl minI
  · split_ifs with hc
    · exact hfl
    · exact hle

/-- C2 witness: the bounds at the concrete configuration min 1, max 3600
and usage 1. -/
theorem C2_witness :
    (0 < 1 ∧ 1 ≤ 3600 ∧ (0 : ℝ) ≤ 1 ∧ (1 : ℝ) ≤ 1) ∧
      (1 ≤ sweepInterval 1 3600 1 ∧ sweepInterval 1 3600 1 ≤ 3600) :=
  ⟨⟨Nat.one_pos, by norm_num, by norm_num, le_refl (1 : ℝ)⟩,
    C2_sweep_interval_in_bounds 1 3600 1 Nat.one_pos (by norm_num) (by norm_num)
      (le_refl (1 : ℝ))⟩

/-- C5: with usage seeded at 1.0 and validated configuration min 1,
max 3600, the first computed interval is exactly 1 = min_interval,
because the damping ratio at percentage 100 clamps to 0. -/
theorem C5_first_interval_is_min :
    sweepInterval 1 3600 1 = 1 ∧ sweepRatio 100 = 0 := by
  have h100 : sweepRatio 100 = 0 := by
    unfold sweepRatio
    rw [if_neg (by linarith [rawRatio_hundred_neg])]
  refine ⟨?_, h100⟩
  unfold sweepInterval
  rw [show (1 : ℝ) * 100 = 100 by norm_num, h100, mul_zero, Nat.floor_zero]
  norm_num


lemma foldl_add_rowset (e : VersionEntity) (rs : List RowSetEntity) :
    (rs.foldl VersionEntity.add_rowset_entity e).rowset_vec = e.rowset_vec ++ rs := by
  induction rs generalizing e with
  | nil => simp
  | cons r rest ih =>
      simp [List.foldl_cons, ih, VersionEntity.add_rowset_entity]

/-! ## Claims about the data model and the discrete worker logic -/

/-- C7: TabletInfo::operator< is a strict total order comparing tablet_id
first and schema_hash as tiebreak, consistent with structural equality:
for all a and b exactly one of a < b, b < a, a = b holds, the order is
transitive, TabletInfo(5,2) < TabletInfo(5,3) < TabletInfo(6,0), and two
TabletInfo with equal fields are equal and neither is less than the other. -/
theorem C7_tabletinfo_strict_total_order :
    (∀ a b : TabletInfo,
      (TabletInfo.lt a b ∧ ¬ TabletInfo.lt b a ∧ a ≠ b) ∨
      (TabletInfo.lt b a ∧ ¬ TabletInfo.lt a b ∧ a ≠ b) ∨
      (a = b ∧ ¬ TabletInfo.lt a b ∧ ¬ TabletInfo.lt b a)) ∧
    (∀ a b c : TabletInfo,
      TabletInfo.lt a b → TabletInfo.lt b c → TabletInfo.lt a c) ∧
    TabletInfo.lt ⟨5, 2⟩ ⟨5, 3⟩ ∧ TabletInfo.lt ⟨5, 3⟩ ⟨6, 0⟩ ∧
    (∀ a b : TabletInfo, a.tablet_id = b.tablet_id →
      a.schema_hash = b.schema_hash →
      a = b ∧ ¬ TabletInfo.lt a b ∧ ¬ TabletInfo.lt b a) := by
  refine ⟨?_, ?_, by decide, by decide, ?_⟩
  · intro a b
    obtain ⟨ai, as⟩ := a
    obtain ⟨bi, bs⟩ := b
    simp only [TabletInfo.lt, TabletInfo.mk.injEq, ne_eq]
    split_ifs <;> omega
  · intro a b c hab hbc
    obtain ⟨ai, as⟩ := a
    obtain ⟨bi, bs⟩ := b
    obtain ⟨ci, cs⟩ := c
    simp only [TabletInfo.lt, ne_eq] at hab hbc ⊢
    split_ifs at hab hbc ⊢ <;> omega
  · intro a b h1 h2
    obtain ⟨ai, as⟩ := a
    obtain ⟨bi, bs⟩ := b
    simp only at h1 h2
    subst h1
    subst h2
    refine ⟨rfl, ?_, ?_⟩ <;> simp [TabletInfo.lt]

/-- C7 witness: transitivity applied at concrete tablets. -/
theorem C7_witness :
    TabletInfo.lt ⟨5, 2⟩ ⟨6, 0⟩ :=
  C7_tabletinfo_strict_total_order.2.1 ⟨5, 2⟩ ⟨5, 3⟩ ⟨6, 0⟩ (by decide) (by decide)

/-- C8: add_rowset_entity appends at the tail of rowset_vec, so folding a
sequence of appends over any VersionEntity extends rowset_vec by exactly
that sequence in order; starting from a freshly constructed entity the
vector equals the sequence itself, and in particular three appends R1, R2,
R3 onto a fresh entity with version (100, 110) give [R1, R2, R3]. -/
theorem C8_add_rowset_preserves_order :
    (∀ (e : VersionEntity) (rs : List RowSetEntity),
      (rs.foldl VersionEntity.add_rowset_entity e).rowset_vec =
        e.rowset_vec ++ rs) ∧
    (∀ (v : ℤ × ℤ) (h : ℤ) (rs : List RowSetEntity),
      (rs.foldl VersionEntity.add_rowset_entity (VersionEntity.make v h)).rowset_vec
        = rs) ∧
    (∀ (h : ℤ) (r1 r2 r3 : RowSetEntity),
      ((((VersionEntity.make (100, 110) h).add_rowset_entity
        r1).add_rowset_entity r2).add_rowset_entity r3).rowset_vec
        = [r1, r2, r3]) := by
  refine ⟨foldl_add_rowset, ?_, ?_⟩
  · intro v h rs
    rw [foldl_add_rowset]
    simp [VersionEntity.make]
  · intro h r1 r2 r3
    simp [VersionEntity.make, VersionEntity.add_rowset_entity]

/-- C9: a RowSetEntity built with a null column_statistics pointer has an
empty key_ranges vector; built with a non-null vector of any length, the
key_ranges vector is that vector copied verbatim (hence of the same
length), including the two-element case. -/
theorem C9_key_ranges_copied_verbatim :
    (∀ (rid ns nr : ℤ) (ds isz : ℕ) (emp : Bool),
      (RowSetEntity.make rid ns nr ds isz emp none).key_ranges = []) ∧
    (∀ (rid ns nr : ℤ) (ds isz : ℕ) (emp : Bool) (stats : List KeyRange),
      (RowSetEntity.make rid ns nr ds isz emp (some stats)).key_ranges = stats ∧
      (RowSetEntity.make rid ns nr ds isz emp (some stats)).key_ranges.length
        = stats.length) ∧
    (∀ (rid ns nr : ℤ) (ds isz : ℕ) (emp : Bool) (k1 k2 : KeyRange),
      (RowSetEntity.make rid ns nr ds isz emp (some [k1, k2])).key_ranges
        = [k1, k2]) := by
  refine ⟨?_, ?_, ?_⟩ <;> intros <;> simp [RowSetEntity.make]

/-- C6 counterexample: the claim that every harness worker sleeps before
acting fails on the disk-stat monitor, whose loop body invokes the action
first. -/
theorem C6_counterexample :
    sleepPrecedesAct (iterBody Worker.diskStatMonitor) = false := by
  decide

/-- C6 amended: the sleep precedes the unit-of-work action only in the
fd-cache cleanup worker; the disk-stat monitor, unused-index cleanup, base
compaction and cumulative compaction workers invoke the action first and
sleep afterwards. -/
theorem C6_amended_iteration_order :
    sleepPrecedesAct (iterBody Worker.fdCacheClean) = true ∧
    actPrecedesSleep (iterBody Worker.diskStatMonitor) = true ∧
    actPrecedesSleep (iterBody Worker.unusedIndexClean) = true ∧
    actPrecedesSleep (iterBody Worker.baseCompaction) = true ∧
    actPrecedesSleep (iterBody Worker.cumulativeCompaction) = true := by
  decide

/-- C4: at the failing input -1 for the fd-cache cleanup configuration,
the conversion to uint32_t yields 4294967295, the check interval ≤ 0 does
not fire, and the effective interval is 4294967295 rather than the
documented safe default 3600; the same unsigned comparison protects every
callback of the harness, so each ignores negative configured values. -/
theorem C4_negative_config_escapes_default :
    fdCacheCleanInterval (-1) = 4294967295 ∧
    ((-1 : ℤ) ≤ 0) ∧
    fdCacheCleanInterval (-1) ≠ 3600 ∧
    baseCompactionCheckInterval (-1) = 4294967295 ∧
    diskStatMonitorInterval (-1) = 4294967295 ∧
    unusedIndexMonitorInterval (-1) = 4294967295 ∧
    cumulativeCompactionCheckInterval (-1) = 4294967295 := by
  refine ⟨by decide, by decide, by decide, by decide, by decide, by decide,
    by decide⟩

/-- C3: at the failing configured pair (-1, -1), which satisfies the
claim's condition min ≤ 0, both uint32_t locals wrap to 4294967295, the
unsigned guard max ≥ min and min > 0 passes, and the validation leaves
the pair unchanged: the resulting min is 4294967295, not the claimed 1.
At configured (0, 5) the guard does fire and resets as the claim
describes, and a legal configured pair such as (2, 7) is left unchanged. -/
theorem C3_negative_config_escapes_validation :
    validateSweepConfig (-1) (-1) = (4294967295, 4294967295) ∧
    ((-1 : ℤ) ≤ 0) ∧
    (validateSweepConfig (-1) (-1)).1 ≠ 1 ∧
    validateSweepConfig 0 5 = (1, 5) ∧
    validateSweepConfig 2 7 = (2, 7) := by
  refine ⟨by decide, by decide, by decide, by decide, by decide⟩

/-- C10: the compaction callbacks pass interval * 1000000 to usleep with
the product computed in 32-bit unsigned arithmetic, so for every interval
of at least 4295 seconds the requested sleep is strictly shorter than the
interval. -/
theorem C10_usleep_product_wraps (i : ℕ) (h32 : i < 2 ^ 32) (h : 4295 ≤ i) :
    compactionSleepMicros i = (i * 1000000) % 2 ^ 32 ∧
    compactionSleepMicros i < i * 1000000 := by
  refine ⟨rfl, ?_⟩
  have h1 : (i * 1000000) % 2 ^ 32 < 2 ^ 32 := Nat.mod_lt _ (by norm_num)
  have h2 : 2 ^ 32 ≤ i * 1000000 := by
    calc (2 : ℕ) ^ 32 ≤ 4295 * 1000000 := by norm_num
    _ ≤ i * 1000000 := Nat.mul_le_mul_right _ h
  unfold compactionSleepMicros
  omega

/-- C10 witness: at interval 4295 the wrapped product is below the exact
product. -/
theorem C10_witness :
    4295 < 2 ^ 32 ∧ 4295 ≤ 4295 ∧
      (compactionSleepMicros 4295 = (4295 * 1000000) % 2 ^ 32 ∧
        compactionSleepMicros 4295 < 4295 * 1000000) :=
  ⟨by norm_num, le_refl 4295, C10_usleep_product_wraps 4295 (by norm_num) (le_refl 4295)⟩

end DorisBg
